import Mathlib

/-!
Verification of the request dispatcher and context store of the
context-grounded chat application (src/pages/Index.tsx).

The embedding models the JavaScript runtime values the handler manipulates
(`JsValue`), the error values it throws (`ErrMsg`), the component state
(`AppState`), and the observable side effects (`Event`: network calls,
toast notices, backoff waits).  The mocked endpoint is a function from the
call number to the HTTP response it returns.
-/

/-- A JavaScript runtime value, as produced by JSON parsing plus the
distinguished `undefined` value that property access on objects yields for
missing keys. -/
inductive JsValue where
  | undefined
  | jnull
  | jbool (b : Bool)
  | jnum (n : Int)
  | jstr (s : String)
  | jarr (elems : List JsValue)
  | jobj (fields : List (String × JsValue))

/-- The message carried by a thrown JavaScript `Error`. `lit` is the string
passed to the `Error` constructor in the source; `propOfNullish p` is the
engine-generated `TypeError` message for reading property `p` of `null` or
`undefined` (its exact wording is engine specific, but it is never equal to
any of the literal strings the source compares error messages against). -/
inductive ErrMsg where
  | lit (s : String)
  | propOfNullish (p : String)
deriving DecidableEq, Repr

/-- Field lookup on a JavaScript object.  JSON parsing keeps the last of
duplicate keys, hence the search over the reversed field list; a missing
key yields `undefined`. -/
def lookupField (fields : List (String × JsValue)) (key : String) : JsValue :=
  match fields.reverse.find? (fun f => f.1 == key) with
  | some f => f.2
  | none => .undefined

/-- JavaScript property access `v.p`: throws a TypeError on `null` or
`undefined`, looks up the field on objects, and yields `undefined` on the
remaining primitives and arrays (none of the property names the source
reads exist on those). -/
def getProp : JsValue → String → Except ErrMsg JsValue
  | .undefined, p => .error (.propOfNullish p)
  | .jnull, p => .error (.propOfNullish p)
  | .jobj fields, p => .ok (lookupField fields p)
  | _, _ => .ok .undefined

/-- JavaScript index access `v[i]`: throws on `null`/`undefined`, yields the
element (or `undefined` out of range) on arrays, string-keyed lookup on
objects, and the one-character string on strings. -/
def getIndex : JsValue → Nat → Except ErrMsg JsValue
  | .undefined, i => .error (.propOfNullish (toString i))
  | .jnull, i => .error (.propOfNullish (toString i))
  | .jarr elems, i => .ok (elems.getD i .undefined)
  | .jobj fields, i => .ok (lookupField fields (toString i))
  | .jstr s, i => .ok (match s.data.get? i with
      | some c => .jstr (String.singleton c)
      | none => .undefined)
  | _, _ => .ok .undefined

/-- JavaScript truthiness. -/
def truthy : JsValue → Bool
  | .undefined => false
  | .jnull => false
  | .jbool b => b
  | .jnum n => n != 0
  | .jstr s => s != ""
  | .jarr _ => true
  | .jobj _ => true

mutual

/-- JavaScript `String(v)` conversion, used when a non-string value is
passed to the `Error` constructor. -/
def jsToString : JsValue → String
  | .undefined => "undefined"
  | .jnull => "null"
  | .jbool b => if b then "true" else "false"
  | .jnum n => toString n
  | .jstr s => s
  | .jarr elems => jsArrToString elems
  | .jobj _ => "[object Object]"

/-- Array element stringification: `null` and `undefined` elements become
the empty string inside `Array.prototype.toString`. -/
def jsElemToString : JsValue → String
  | .undefined => ""
  | .jnull => ""
  | .jbool b => if b then "true" else "false"
  | .jnum n => toString n
  | .jstr s => s
  | .jarr elems => jsArrToString elems
  | .jobj _ => "[object Object]"

/-- Comma-joined stringification of a JavaScript array's elements. -/
def jsArrToString : List JsValue → String
  | [] => ""
  | [e] => jsElemToString e
  | e :: rest => jsElemToString e ++ "," ++ jsArrToString rest

end

/-- The reply-text extraction `data.candidates[0].content.parts[0].text`
from the success path of the send handler, with JavaScript property-access
semantics (an `Except.error` is a thrown TypeError). -/
def extractText (data : JsValue) : Except ErrMsg JsValue := do
  let c ← getProp data "candidates"
  let c0 ← getIndex c 0
  let content ← getProp c0 "content"
  let parts ← getProp content "parts"
  let p0 ← getIndex parts 0
  getProp p0 "text"

/-- The optional-chain read `errorData.error?.message` from the error path
of `makeRequest`: the access of `error` on `errorData` is a plain access
(throws on nullish `errorData`); only the `message` access is guarded. -/
def errorDataMessage (errorData : JsValue) : Except ErrMsg JsValue := do
  let e ← getProp errorData "error"
  match e with
  | .undefined => pure .undefined
  | .jnull => pure .undefined
  | _ => getProp e "message"

/-- Message role, from the `Message` interface. -/
inductive Role where
  | user
  | assistant
deriving DecidableEq, Repr

/-- A transcript entry.  The content is a `JsValue` because the assistant
content is whatever the extraction chain yields at runtime (the TypeScript
annotation says string, but the extraction can produce `undefined`). -/
structure Message where
  role : Role
  content : JsValue

/-- An uploaded document, from the `Context` interface. -/
structure Context where
  id : String
  name : String
  content : String
deriving DecidableEq, Repr

/-- An HTTP response as seen by the handler: the `ok` flag, numeric status,
status text, and the JSON-decoded body.  (Bodies are taken to be valid
JSON, i.e. `response.json()` succeeds.) -/
structure HttpResponse where
  ok : Bool
  status : Nat
  statusText : String
  body : JsValue

/-- The component state of `Index` relevant to the handlers. -/
structure AppState where
  messages : List Message
  contexts : List Context
  selectedContext : String
  input : String
  isLoading : Bool
  apiKey : String

/-- An observable side effect of one handler invocation: an outbound
network call (carrying the credential and the prompt of its JSON body), a
toast notification, or a backoff wait in milliseconds. -/
inductive Event where
  | fetch (apiKey : String) (prompt : String)
  | toast (title : String) (description : ErrMsg) (destructive : Bool)
  | wait (ms : Nat)
deriving DecidableEq, Repr

/-- Strip leading whitespace characters from a character list. -/
def dropLeadingWs : List Char → List Char
  | [] => []
  | c :: cs => if c.isWhitespace then dropLeadingWs cs else c :: cs

/-- JavaScript `String.prototype.trim`: strip whitespace from both ends. -/
def jsTrim (s : String) : String :=
  ⟨(dropLeadingWs (dropLeadingWs s.data).reverse).reverse⟩

/-- The literal instruction template prefix from `makeRequest`. -/
def restrictiveInstruction : String :=
  "You are a helpful assistant. Use ONLY the following context to answer the question. If the question cannot be answered using the context, say \"I cannot answer this question based on the provided context.\""

/-- Prompt construction from `makeRequest`: look the selected id up in the
context collection; if found and the id is not the sentinel, wrap the input
in the restrictive template, else the prompt is the raw input. -/
def buildPrompt (contexts : List Context) (selectedContext input : String) : String :=
  match contexts.find? (fun ctx => ctx.id == selectedContext) with
  | some context =>
      if selectedContext ≠ "no-context" then
        restrictiveInstruction ++ "\n\nContext:\n" ++ context.content ++
          "\n\nQuestion: " ++ input ++ "\n\nAnswer:"
      else input
  | none => input

/-- Response handling of `makeRequest` after the fetch resolves: success
returns the parsed body; a non-ok response parses the error body, throws
RATE_LIMIT on status 429, and otherwise throws
`errorData.error?.message || response.statusText`. -/
def makeRequest (resp : HttpResponse) : Except ErrMsg JsValue :=
  if resp.ok then .ok resp.body
  else
    let errorData := resp.body
    if resp.status = 429 then .error (.lit "RATE_LIMIT")
    else
      match errorDataMessage errorData with
      | .error e => .error e
      | .ok v => .error (.lit (if truthy v then jsToString v else resp.statusText))

/-- The check `error instanceof Error && error.message === "RATE_LIMIT"`
from the retry loop (all thrown values in the handler are `Error`s; a
TypeError's message is never the literal RATE_LIMIT). -/
def isRateLimitErr : ErrMsg → Bool
  | .lit m => m == "RATE_LIMIT"
  | .propOfNullish _ => false

/-- The retry ceiling `maxRetries` of `handleSend`. -/
def maxRetries : Nat := 3

/-- The retry loop of `handleSend`.  `fuel` encodes the loop guard: at every
entry `fuel = maxRetries - retryCount`, so `fuel = 0` is exactly
`retryCount < maxRetries` failing, in which case the loop exits with `data`
still unassigned (`Option.none`).  `callIdx` numbers the network calls so a
mocked endpoint can script per-call responses.  Returns the emitted events
and either the thrown error or the parsed body of the successful call. -/
def retryLoop (ep : Nat → HttpResponse) (apiKey prompt : String) :
    Nat → Nat → Nat → List Event × Except ErrMsg (Option JsValue)
  | 0, _, _ => ([], .ok none)
  | fuel + 1, retryCount, callIdx =>
    let resp := ep callIdx
    match makeRequest resp with
    | .ok d => ([.fetch apiKey prompt], .ok (some d))
    | .error e =>
      if isRateLimitErr e then
        let retryCount := retryCount + 1
        if retryCount < maxRetries then
          let waitTime := 2 ^ retryCount * 1000
          let rest := retryLoop ep apiKey prompt fuel retryCount (callIdx + 1)
          (Event.fetch apiKey prompt ::
            Event.toast "Rate limit reached"
              (.lit ("Retrying in " ++ toString (waitTime / 1000) ++
                " seconds... (Attempt " ++ toString retryCount ++ "/" ++
                toString maxRetries ++ ")")) false ::
            Event.wait waitTime :: rest.1, rest.2)
        else ([.fetch apiKey prompt], .error e)
      else ([.fetch apiKey prompt], .error e)

/-- The send handler `handleSend`: guard on blank input, guard on the empty
credential, append the user message and set the busy flag, run the retry
loop, and either append the extracted assistant reply or surface the caught
error as a destructive toast; the busy flag is cleared in `finally`.
Returns the final state and the emitted events in order. -/
def handleSend (s : AppState) (ep : Nat → HttpResponse) : AppState × List Event :=
  if jsTrim s.input = "" then (s, [])
  else if s.apiKey = "" then
    (s, [.toast "API Key Required"
          (.lit "Please enter your Google AI API key to continue") true])
  else
    let userMessage : Message := { role := .user, content := .jstr s.input }
    let s1 := { s with messages := s.messages ++ [userMessage],
                       input := "", isLoading := true }
    let prompt := buildPrompt s.contexts s.selectedContext s.input
    let r := retryLoop ep s.apiKey prompt maxRetries 0 0
    let tryResult : Except ErrMsg JsValue :=
      match r.2 with
      | .error e => .error e
      | .ok odata =>
        let data := odata.getD .undefined
        if truthy data then
          match extractText data with
          | .error e => .error e
          | .ok t => .ok t
        else .error (.lit "Failed to get response after retries")
    match tryResult with
    | .ok t =>
      ({ s1 with messages := s1.messages ++ [{ role := .assistant, content := t }],
                 isLoading := false }, r.1)
    | .error e =>
      let description : ErrMsg :=
        match e with
        | .lit m =>
          if m = "RATE_LIMIT" then .lit "Rate limit exceeded. Please try again later."
          else .lit m
        | _ => e
      ({ s1 with isLoading := false },
        r.1 ++ [.toast "Error" description true])

/-- Number of network calls recorded in an event trace. -/
def networkCalls (evs : List Event) : Nat :=
  (evs.filter fun e => match e with | .fetch _ _ => true | _ => false).length

/-- The document-accept handler `onDrop`, restricted to its effect on the
context collection: each accepted file is decoded to text and appended as a
new context whose id is `Date.now().toString()` at processing time.  A file
is modelled as (processing timestamp, name, decoded text). -/
def onDrop (contexts : List Context) (files : List (Nat × String × String)) :
    List Context :=
  files.foldl (fun acc f => acc ++ [{ id := toString f.1, name := f.2.1, content := f.2.2 }]) contexts

/-- A well-formed success body carrying the given reply text. -/
def wellFormedBody (reply : String) : JsValue :=
  .jobj [("candidates", .jarr [.jobj [("content",
    .jobj [("parts", .jarr [.jobj [("text", .jstr reply)]])])]])]

/-! ### Endpoint fixtures and helper lemmas -/

/-- A mocked endpoint answering HTTP 429 on every call (status texts and
bodies arbitrary). -/
def mockAll429 (st : Nat → String) (b : Nat → JsValue) : Nat → HttpResponse :=
  fun n => { ok := false, status := 429, statusText := st n, body := b n }

/-- A mocked endpoint answering HTTP 429 on the first two calls and
HTTP 200 with the given body from the third call on. -/
def mock429TwiceThenOk (st0 st1 stOk : String) (b0 b1 okBody : JsValue) :
    Nat → HttpResponse :=
  fun n =>
    if n = 0 then { ok := false, status := 429, statusText := st0, body := b0 }
    else if n = 1 then { ok := false, status := 429, statusText := st1, body := b1 }
    else { ok := true, status := 200, statusText := stOk, body := okBody }

/-- A base state: empty transcript, no contexts, sentinel selection,
input "hi", credential "k". -/
def s0 : AppState :=
  { messages := [], contexts := [], selectedContext := "no-context",
    input := "hi", isLoading := false, apiKey := "k" }

/-- An endpoint that always succeeds with the reply "hello". -/
def epOk : Nat → HttpResponse :=
  fun _ => { ok := true, status := 200, statusText := "OK", body := wellFormedBody "hello" }

/-- HTTP 500 whose body carries a provider error message "boom". -/
def ep500boom : Nat → HttpResponse :=
  fun _ => { ok := false, status := 500, statusText := "Internal Server Error",
             body := .jobj [("error", .jobj [("message", .jstr "boom")])] }

/-- HTTP 500 whose body is JSON null. -/
def ep500null : Nat → HttpResponse :=
  fun _ => { ok := false, status := 500, statusText := "Internal Server Error",
             body := .jnull }

/-- An HTTP 200 body whose first candidate's first part exists but has no
text field. -/
def bodyMissingText : JsValue :=
  .jobj [("candidates", .jarr [.jobj [("content",
    .jobj [("parts", .jarr [.jobj []])])]])]

/-- An endpoint answering HTTP 200 with `bodyMissingText`. -/
def epMissingText : Nat → HttpResponse :=
  fun _ => { ok := true, status := 200, statusText := "OK", body := bodyMissingText }

/-- An endpoint answering HTTP 200 with a body that has no candidates. -/
def epNoCandidates : Nat → HttpResponse :=
  fun _ => { ok := true, status := 200, statusText := "OK", body := .jobj [] }

lemma makeRequest_ok (r : HttpResponse) (h : r.ok = true) :
    makeRequest r = .ok r.body := by
  simp [makeRequest, h]

lemma makeRequest_429 (r : HttpResponse) (hok : r.ok = false) (hst : r.status = 429) :
    makeRequest r = .error (.lit "RATE_LIMIT") := by
  simp [makeRequest, hok, hst]

lemma makeRequest_err (r : HttpResponse) (v : JsValue) (hok : r.ok = false)
    (hst : r.status ≠ 429) (hv : errorDataMessage r.body = .ok v) :
    makeRequest r = .error (.lit (if truthy v then jsToString v else r.statusText)) := by
  simp [makeRequest, hok, hst, hv]

lemma retryLoop_stop (ep : Nat → HttpResponse) (k p : String) (e : ErrMsg)
    (h : makeRequest (ep 0) = .error e) (hne : isRateLimitErr e = false) :
    retryLoop ep k p maxRetries 0 0 = ([.fetch k p], .error e) := by
  simp [maxRetries, retryLoop, h, hne]

lemma retryLoop_firstOk (ep : Nat → HttpResponse) (k p : String) (d : JsValue)
    (h : makeRequest (ep 0) = .ok d) :
    retryLoop ep k p maxRetries 0 0 = ([.fetch k p], .ok (some d)) := by
  simp [maxRetries, retryLoop, h]

lemma retryLoop_ne_none (ep : Nat → HttpResponse) (k p : String) :
    ∀ fuel rc ci, fuel + rc = maxRetries → 1 ≤ fuel →
      (retryLoop ep k p fuel rc ci).2 ≠ .ok none := by
  intro fuel
  induction fuel with
  | zero => intro rc ci _ h; omega
  | succ f ih =>
    intro rc ci hinv _
    simp only [retryLoop]
    match hm : makeRequest (ep ci) with
    | .ok d => simp
    | .error e =>
      simp only []
      by_cases hrl : isRateLimitErr e
      · simp only [hrl, if_true]
        by_cases hlt : rc + 1 < maxRetries
        · simp only [hlt, if_true]
          exact ih (rc + 1) (ci + 1) (by simp [maxRetries] at hinv hlt ⊢; omega)
            (by simp [maxRetries] at hinv hlt ⊢; omega)
        · simp [hlt]
      · simp [hrl]

lemma onDrop_eq (ctxs : List Context) (files : List (Nat × String × String)) :
    onDrop ctxs files =
      ctxs ++ files.map (fun f => { id := toString f.1, name := f.2.1, content := f.2.2 }) := by
  induction files generalizing ctxs with
  | nil => simp [onDrop]
  | cons f fs ih =>
    simp only [onDrop, List.foldl_cons, List.map_cons] at ih ⊢
    rw [ih, List.append_assoc]
    rfl

/-! ### Claim theorems -/

/-- Claim C1: for every invocation of the send handler with non-empty
trimmed user text and an empty credential string, no network call is
performed and the missing-credential condition is signalled immediately via
the notification channel as the only effect: the state is unchanged and the
event trace is exactly the one destructive toast. -/
theorem claim1_missing_credential_no_network (s : AppState) (ep : Nat → HttpResponse)
    (h1 : jsTrim s.input ≠ "") (h2 : s.apiKey = "") :
    handleSend s ep =
      (s, [.toast "API Key Required"
            (.lit "Please enter your Google AI API key to continue") true])
    ∧ networkCalls (handleSend s ep).2 = 0 := by
  have key : handleSend s ep =
      (s, [.toast "API Key Required"
            (.lit "Please enter your Google AI API key to continue") true]) := by
    simp only [handleSend]
    rw [if_neg h1, if_pos h2]
  exact ⟨key, by rw [key]; rfl⟩

/-- Witness for C1 at a concrete state with input "hi" and empty key. -/
theorem claim1_witness :
    jsTrim "hi" ≠ ""
    ∧ (handleSend { s0 with apiKey := "" } epOk =
        ({ s0 with apiKey := "" },
         [.toast "API Key Required"
            (.lit "Please enter your Google AI API key to continue") true])
      ∧ networkCalls (handleSend { s0 with apiKey := "" } epOk).2 = 0) :=
  ⟨by decide, claim1_missing_credential_no_network { s0 with apiKey := "" } epOk (by decide) rfl⟩

/-- Claim C10: for every invocation of the send handler whose input trims
to the empty string, the handler is a no-op: the state is returned
unchanged and no event (network call, toast, wait) is emitted. -/
theorem claim10_blank_input_noop (s : AppState) (ep : Nat → HttpResponse)
    (h : jsTrim s.input = "") :
    handleSend s ep = (s, []) := by
  simp only [handleSend]
  rw [if_pos h]

/-- Witness for C10 at a concrete whitespace-only input. -/
theorem claim10_witness :
    jsTrim " \t " = "" ∧ handleSend { s0 with input := " \t " } epOk = ({ s0 with input := " \t " }, []) :=
  ⟨by decide, claim10_blank_input_noop { s0 with input := " \t " } epOk (by decide)⟩

/-- Claim C2: if the selected-context id references an existing context and
is not the sentinel, the constructed prompt is the restrictive template
around that context's full text and the user input; if the id is the
sentinel or references no existing context, the prompt equals the raw
input. -/
theorem claim2_prompt_construction (contexts : List Context) (sel input : String) :
    ((∃ c ∈ contexts, c.id = sel) → sel ≠ "no-context" →
      ∃ c ∈ contexts, c.id = sel ∧
        buildPrompt contexts sel input =
          restrictiveInstruction ++ "\n\nContext:\n" ++ c.content ++
            "\n\nQuestion: " ++ input ++ "\n\nAnswer:")
    ∧ (sel = "no-context" ∨ (∀ c ∈ contexts, c.id ≠ sel) →
      buildPrompt contexts sel input = input) := by
  constructor
  · rintro ⟨c, hc, hid⟩ hsel
    have hsome : (contexts.find? (fun ctx => ctx.id == sel)).isSome := by
      rw [List.find?_isSome]
      exact ⟨c, hc, by simp [hid]⟩
    obtain ⟨x, hx⟩ := Option.isSome_iff_exists.mp hsome
    have hmem := List.mem_of_find?_eq_some hx
    have hpx : x.id = sel := by simpa using List.find?_some hx
    refine ⟨x, hmem, hpx, ?_⟩
    simp [buildPrompt, hx, hsel]
  · rintro (hsel | hstale)
    · subst hsel
      simp only [buildPrompt]
      split <;> simp
    · have hnone : contexts.find? (fun ctx => ctx.id == sel) = none := by
        rw [List.find?_eq_none]
        intro c hc
        simpa using hstale c hc
      simp [buildPrompt, hnone]

/-- Witness for C2: a selected singleton context yields the template; the
sentinel yields the raw input. -/
theorem claim2_witness :
    (∃ c ∈ [({ id := "1", name := "doc.txt", content := "CTXT" } : Context)], c.id = "1" ∧
      buildPrompt [{ id := "1", name := "doc.txt", content := "CTXT" }] "1" "Q" =
        restrictiveInstruction ++ "\n\nContext:\n" ++ c.content ++
          "\n\nQuestion: " ++ "Q" ++ "\n\nAnswer:")
    ∧ buildPrompt [{ id := "1", name := "doc.txt", content := "CTXT" }] "no-context" "Q" = "Q" :=
  ⟨(claim2_prompt_construction [{ id := "1", name := "doc.txt", content := "CTXT" }] "1" "Q").1
      ⟨{ id := "1", name := "doc.txt", content := "CTXT" }, by simp, rfl⟩ (by decide),
   (claim2_prompt_construction [{ id := "1", name := "doc.txt", content := "CTXT" }] "no-context" "Q").2
      (Or.inl rfl)⟩

/-- Claim C3: against a mocked endpoint answering HTTP 429 on the first two
calls and HTTP 200 with a well-formed body on the third, one invocation
performs exactly 3 network calls, emits a retry notice and then waits
2000 ms before the second call and 4000 ms before the third (backoff
2^n seconds before retry n, per retry, not cumulative), and appends the
extracted reply text as the assistant message. -/
theorem claim3_two_rate_limits_then_success (s : AppState)
    (st0 st1 stOk : String) (b0 b1 : JsValue) (reply : String)
    (h1 : jsTrim s.input ≠ "") (h2 : s.apiKey ≠ "") :
    handleSend s (mock429TwiceThenOk st0 st1 stOk b0 b1 (wellFormedBody reply)) =
      ({ s with
          messages := (s.messages ++ [{ role := .user, content := .jstr s.input }]) ++
            [{ role := .assistant, content := .jstr reply }],
          input := "", isLoading := false },
       [.fetch s.apiKey (buildPrompt s.contexts s.selectedContext s.input),
        .toast "Rate limit reached" (.lit "Retrying in 2 seconds... (Attempt 1/3)") false,
        .wait 2000,
        .fetch s.apiKey (buildPrompt s.contexts s.selectedContext s.input),
        .toast "Rate limit reached" (.lit "Retrying in 4 seconds... (Attempt 2/3)") false,
        .wait 4000,
        .fetch s.apiKey (buildPrompt s.contexts s.selectedContext s.input)])
    ∧ networkCalls (handleSend s (mock429TwiceThenOk st0 st1 stOk b0 b1 (wellFormedBody reply))).2 = 3 := by
  have key : handleSend s (mock429TwiceThenOk st0 st1 stOk b0 b1 (wellFormedBody reply)) =
      ({ s with
          messages := (s.messages ++ [{ role := .user, content := .jstr s.input }]) ++
            [{ role := .assistant, content := .jstr reply }],
          input := "", isLoading := false },
       [.fetch s.apiKey (buildPrompt s.contexts s.selectedContext s.input),
        .toast "Rate limit reached" (.lit "Retrying in 2 seconds... (Attempt 1/3)") false,
        .wait 2000,
        .fetch s.apiKey (buildPrompt s.contexts s.selectedContext s.input),
        .toast "Rate limit reached" (.lit "Retrying in 4 seconds... (Attempt 2/3)") false,
        .wait 4000,
        .fetch s.apiKey (buildPrompt s.contexts s.selectedContext s.input)]) := by
    simp only [handleSend]
    rw [if_neg h1, if_neg h2]
    rfl
  exact ⟨key, by rw [key]; rfl⟩

/-- Witness for C3 at the base state with reply "hello". -/
theorem claim3_witness :
    jsTrim "hi" ≠ "" ∧ ("k" : String) ≠ ""
    ∧ (handleSend s0 (mock429TwiceThenOk "TMR" "TMR" "OK" (.jobj []) (.jobj []) (wellFormedBody "hello")) =
        ({ s0 with
            messages := [{ role := .user, content := .jstr "hi" },
              { role := .assistant, content := .jstr "hello" }],
            input := "", isLoading := false },
         [.fetch "k" "hi",
          .toast "Rate limit reached" (.lit "Retrying in 2 seconds... (Attempt 1/3)") false,
          .wait 2000,
          .fetch "k" "hi",
          .toast "Rate limit reached" (.lit "Retrying in 4 seconds... (Attempt 2/3)") false,
          .wait 4000,
          .fetch "k" "hi"])
      ∧ networkCalls (handleSend s0 (mock429TwiceThenOk "TMR" "TMR" "OK" (.jobj []) (.jobj []) (wellFormedBody "hello"))).2 = 3) :=
  ⟨by decide, by decide,
   claim3_two_rate_limits_then_success s0 "TMR" "TMR" "OK" (.jobj []) (.jobj []) "hello" (by decide) (by decide)⟩

/-- Claim C4: against a mocked endpoint answering HTTP 429 on every call,
one invocation performs exactly 3 network calls and no fourth, each retry
is preceded by a transient notice stating the wait duration and the attempt
count out of the maximum, the run terminates with the rate-limit-exhausted
error surfaced as a destructive toast, and no assistant message is
appended. -/
theorem claim4_retries_exhausted (s : AppState) (st : Nat → String) (b : Nat → JsValue)
    (h1 : jsTrim s.input ≠ "") (h2 : s.apiKey ≠ "") :
    handleSend s (mockAll429 st b) =
      ({ s with
          messages := s.messages ++ [{ role := .user, content := .jstr s.input }],
          input := "", isLoading := false },
       [.fetch s.apiKey (buildPrompt s.contexts s.selectedContext s.input),
        .toast "Rate limit reached" (.lit "Retrying in 2 seconds... (Attempt 1/3)") false,
        .wait 2000,
        .fetch s.apiKey (buildPrompt s.contexts s.selectedContext s.input),
        .toast "Rate limit reached" (.lit "Retrying in 4 seconds... (Attempt 2/3)") false,
        .wait 4000,
        .fetch s.apiKey (buildPrompt s.contexts s.selectedContext s.input),
        .toast "Error" (.lit "Rate limit exceeded. Please try again later.") true])
    ∧ networkCalls (handleSend s (mockAll429 st b)).2 = 3 := by
  have key : handleSend s (mockAll429 st b) =
      ({ s with
          messages := s.messages ++ [{ role := .user, content := .jstr s.input }],
          input := "", isLoading := false },
       [.fetch s.apiKey (buildPrompt s.contexts s.selectedContext s.input),
        .toast "Rate limit reached" (.lit "Retrying in 2 seconds... (Attempt 1/3)") false,
        .wait 2000,
        .fetch s.apiKey (buildPrompt s.contexts s.selectedContext s.input),
        .toast "Rate limit reached" (.lit "Retrying in 4 seconds... (Attempt 2/3)") false,
        .wait 4000,
        .fetch s.apiKey (buildPrompt s.contexts s.selectedContext s.input),
        .toast "Error" (.lit "Rate limit exceeded. Please try again later.") true]) := by
    simp only [handleSend]
    rw [if_neg h1, if_neg h2]
    rfl
  exact ⟨key, by rw [key]; rfl⟩

/-- Witness for C4 at the base state. -/
theorem claim4_witness :
    jsTrim "hi" ≠ "" ∧ ("k" : String) ≠ ""
    ∧ (handleSend s0 (mockAll429 (fun _ => "Too Many Requests") (fun _ => .jobj [])) =
        ({ s0 with
            messages := [{ role := .user, content := .jstr "hi" }],
            input := "", isLoading := false },
         [.fetch "k" "hi",
          .toast "Rate limit reached" (.lit "Retrying in 2 seconds... (Attempt 1/3)") false,
          .wait 2000,
          .fetch "k" "hi",
          .toast "Rate limit reached" (.lit "Retrying in 4 seconds... (Attempt 2/3)") false,
          .wait 4000,
          .fetch "k" "hi",
          .toast "Error" (.lit "Rate limit exceeded. Please try again later.") true])
      ∧ networkCalls (handleSend s0 (mockAll429 (fun _ => "Too Many Requests") (fun _ => .jobj []))).2 = 3) :=
  ⟨by decide, by decide,
   claim4_retries_exhausted s0 (fun _ => "Too Many Requests") (fun _ => .jobj []) (by decide) (by decide)⟩

/-- Counterexample to claim C5 as stated: for HTTP 500 with JSON body null
(no provider error message present), the surfaced description is the
TypeError from reading the property "error" of null, not the raw status
text "Internal Server Error" the claim requires. -/
theorem claim5_counterexample :
    (handleSend s0 ep500null).2 =
      [.fetch "k" "hi", .toast "Error" (.propOfNullish "error") true]
    ∧ ErrMsg.propOfNullish "error" ≠ .lit "Internal Server Error" :=
  ⟨rfl, by decide⟩

/-- Claim C5 (amended): for every non-success, non-429 first response whose
error body is not nullish (so that the read of errorData.error does not
throw) and whose computed message is not the literal RATE_LIMIT, the
dispatcher performs exactly 1 network call, does not retry, appends no
assistant message, and surfaces the provider's error message when truthy,
else the raw status text. -/
theorem claim5_request_failed_amended (s : AppState) (ep : Nat → HttpResponse) (v : JsValue)
    (h1 : jsTrim s.input ≠ "") (h2 : s.apiKey ≠ "")
    (hok : (ep 0).ok = false) (hst : (ep 0).status ≠ 429)
    (hv : errorDataMessage (ep 0).body = .ok v)
    (hm : (if truthy v then jsToString v else (ep 0).statusText) ≠ "RATE_LIMIT") :
    (handleSend s ep).2 =
      [.fetch s.apiKey (buildPrompt s.contexts s.selectedContext s.input),
       .toast "Error" (.lit (if truthy v then jsToString v else (ep 0).statusText)) true]
    ∧ (handleSend s ep).1.messages =
        s.messages ++ [{ role := .user, content := .jstr s.input }]
    ∧ networkCalls (handleSend s ep).2 = 1 := by
  have hmr := makeRequest_err (ep 0) v hok hst hv
  have hne : isRateLimitErr (.lit (if truthy v then jsToString v else (ep 0).statusText)) = false := by
    simp [isRateLimitErr, hm]
  have hstop := retryLoop_stop ep s.apiKey
    (buildPrompt s.contexts s.selectedContext s.input) _ hmr hne
  have key : handleSend s ep =
      ({ s with
          messages := s.messages ++ [{ role := .user, content := .jstr s.input }],
          input := "", isLoading := false },
       [.fetch s.apiKey (buildPrompt s.contexts s.selectedContext s.input),
        .toast "Error" (.lit (if truthy v then jsToString v else (ep 0).statusText)) true]) := by
    simp only [handleSend]
    rw [if_neg h1, if_neg h2, hstop]
    simp [hm]
  exact ⟨by rw [key], by rw [key], by rw [key]; rfl⟩

/-- Witness for C5 (amended) at HTTP 500 with error message "boom". -/
theorem claim5_witness :
    jsTrim "hi" ≠ "" ∧ ("k" : String) ≠ ""
    ∧ (ep500boom 0).ok = false ∧ (ep500boom 0).status ≠ 429
    ∧ errorDataMessage (ep500boom 0).body = .ok (.jstr "boom")
    ∧ (if truthy (.jstr "boom") then jsToString (.jstr "boom") else (ep500boom 0).statusText) ≠ "RATE_LIMIT"
    ∧ ((handleSend s0 ep500boom).2 =
        [.fetch "k" "hi",
         .toast "Error" (.lit (if truthy (.jstr "boom") then jsToString (.jstr "boom") else (ep500boom 0).statusText)) true]
      ∧ (handleSend s0 ep500boom).1.messages =
          [{ role := .user, content := .jstr "hi" }]
      ∧ networkCalls (handleSend s0 ep500boom).2 = 1) :=
  ⟨by decide, by decide, rfl, by decide, rfl, by decide,
   claim5_request_failed_amended s0 ep500boom (.jstr "boom")
     (by decide) (by decide) rfl (by decide) rfl (by decide)⟩

/-- Counterexample to claim C6 as stated: for HTTP 200 whose body has a
first part without a text field, the dispatcher does not surface any
malformed-response error (the trace has no toast at all); it instead
appends an assistant message whose content is the undefined value. -/
theorem claim6_counterexample :
    (handleSend s0 epMissingText).1.messages =
      [{ role := .user, content := .jstr "hi" },
       { role := .assistant, content := .undefined }]
    ∧ (handleSend s0 epMissingText).2 = [.fetch "k" "hi"] :=
  ⟨rfl, rfl⟩

/-- Claim C6 (amended): for every HTTP 200 response with a truthy body on
which the extraction of the first candidate's first text part throws (no
candidates array, no first candidate, no content, no parts, or an empty
parts array), the dispatcher surfaces the caught TypeError as a destructive
error toast and appends no assistant message; the handler never crashes
(every branch returns a final state and trace).  Only when the first part
exists but merely lacks the text field does the code instead treat the
response as a success with an undefined reply (the counterexample). -/
theorem claim6_malformed_amended (s : AppState) (ep : Nat → HttpResponse) (p : String)
    (h1 : jsTrim s.input ≠ "") (h2 : s.apiKey ≠ "")
    (hok : (ep 0).ok = true) (htr : truthy (ep 0).body = true)
    (hex : extractText (ep 0).body = .error (.propOfNullish p)) :
    (handleSend s ep).2 =
      [.fetch s.apiKey (buildPrompt s.contexts s.selectedContext s.input),
       .toast "Error" (.propOfNullish p) true]
    ∧ (handleSend s ep).1.messages =
        s.messages ++ [{ role := .user, content := .jstr s.input }] := by
  have hmr := makeRequest_ok (ep 0) hok
  have hfirst := retryLoop_firstOk ep s.apiKey
    (buildPrompt s.contexts s.selectedContext s.input) _ hmr
  have key : handleSend s ep =
      ({ s with
          messages := s.messages ++ [{ role := .user, content := .jstr s.input }],
          input := "", isLoading := false },
       [.fetch s.apiKey (buildPrompt s.contexts s.selectedContext s.input),
        .toast "Error" (.propOfNullish p) true]) := by
    simp only [handleSend]
    rw [if_neg h1, if_neg h2, hfirst]
    simp [htr, hex]
  exact ⟨by rw [key], by rw [key]⟩

/-- Witness for C6 (amended) at a body with no candidates key: the access
chain throws at index 0 of undefined. -/
theorem claim6_witness :
    jsTrim "hi" ≠ "" ∧ ("k" : String) ≠ ""
    ∧ (epNoCandidates 0).ok = true ∧ truthy (epNoCandidates 0).body = true
    ∧ extractText (epNoCandidates 0).body = .error (.propOfNullish "0")
    ∧ ((handleSend s0 epNoCandidates).2 =
        [.fetch "k" "hi", .toast "Error" (.propOfNullish "0") true]
      ∧ (handleSend s0 epNoCandidates).1.messages =
          [{ role := .user, content := .jstr "hi" }]) :=
  ⟨by decide, by decide, rfl, rfl, rfl,
   claim6_malformed_amended s0 epNoCandidates "0" (by decide) (by decide) rfl rfl rfl⟩

/-- Counterexample to claim C7 as stated: an invocation that ends in a
terminal RequestFailed (HTTP 500, message "boom") does mutate the
transcript: the submission's user message is appended even though the run
failed, so the transcript receives an entry for that submission. -/
theorem claim7_counterexample :
    (handleSend s0 ep500boom).2 = [.fetch "k" "hi", .toast "Error" (.lit "boom") true]
    ∧ (handleSend s0 ep500boom).1.messages = [{ role := .user, content := .jstr "hi" }]
    ∧ [({ role := .user, content := .jstr "hi" } : Message)] ≠ ([] : List Message) :=
  ⟨rfl, rfl, by simp⟩

/-- Claim C7 (amended): for every invocation with non-blank input, exactly
one of: the credential is empty and the transcript is unchanged (the
missing-credential failure); the run succeeds and the transcript gains the
user message and exactly one assistant message; or the run ends in a
terminal failure, the transcript gains exactly the user message (and no
assistant message), and the last emitted event is a destructive
human-readable error toast. -/
theorem claim7_transcript_amended (s : AppState) (ep : Nat → HttpResponse)
    (h1 : jsTrim s.input ≠ "") :
    (s.apiKey = "" ∧ (handleSend s ep).1.messages = s.messages)
    ∨ (∃ t, (handleSend s ep).1.messages =
        s.messages ++ [{ role := .user, content := .jstr s.input },
          { role := .assistant, content := t }])
    ∨ ((handleSend s ep).1.messages =
        s.messages ++ [{ role := .user, content := .jstr s.input }]
      ∧ ∃ d, ((handleSend s ep).2).getLast? = some (.toast "Error" d true)) := by
  by_cases h2 : s.apiKey = ""
  · left
    refine ⟨h2, ?_⟩
    simp only [handleSend]
    rw [if_neg h1, if_pos h2]
  · right
    simp only [handleSend]
    rw [if_neg h1, if_neg h2]
    rcases hr : retryLoop ep s.apiKey (buildPrompt s.contexts s.selectedContext s.input)
      maxRetries 0 0 with ⟨evs, res⟩
    have hnn := retryLoop_ne_none ep s.apiKey
      (buildPrompt s.contexts s.selectedContext s.input) maxRetries 0 0 rfl
      (by simp [maxRetries])
    rw [hr] at hnn
    rcases res with e | od
    · right
      refine ⟨by simp, ?_⟩
      rcases e with m | p
      · by_cases hm : m = "RATE_LIMIT"
        · exact ⟨.lit "Rate limit exceeded. Please try again later.",
            by simp [hm, List.getLast?_concat]⟩
        · exact ⟨.lit m, by simp [hm, List.getLast?_concat]⟩
      · exact ⟨.propOfNullish p, by simp [List.getLast?_concat]⟩
    · rcases od with _ | data
      · simp at hnn
      · by_cases ht : truthy data
        · rcases hx : extractText data with e | t
          · right
            refine ⟨by simp [ht, hx], ?_⟩
            rcases e with m | p
            · by_cases hm : m = "RATE_LIMIT"
              · exact ⟨.lit "Rate limit exceeded. Please try again later.",
                  by simp [ht, hx, hm, List.getLast?_concat]⟩
              · exact ⟨.lit m, by simp [ht, hx, hm, List.getLast?_concat]⟩
            · exact ⟨.propOfNullish p, by simp [ht, hx, List.getLast?_concat]⟩
          · left
            exact ⟨t, by simp [ht, hx, List.append_assoc]⟩
        · right
          refine ⟨by simp [ht], ?_⟩
          exact ⟨.lit "Failed to get response after retries",
            by simp [ht, List.getLast?_concat]⟩

/-- Witness for C7 (amended) at the base state against the always-success
endpoint. -/
theorem claim7_witness :
    jsTrim "hi" ≠ ""
    ∧ ((s0.apiKey = "" ∧ (handleSend s0 epOk).1.messages = s0.messages)
      ∨ (∃ t, (handleSend s0 epOk).1.messages =
          s0.messages ++ [{ role := .user, content := .jstr "hi" },
            { role := .assistant, content := t }])
      ∨ ((handleSend s0 epOk).1.messages =
          s0.messages ++ [{ role := .user, content := .jstr "hi" }]
        ∧ ∃ d, ((handleSend s0 epOk).2).getLast? = some (.toast "Error" d true))) :=
  ⟨by decide, claim7_transcript_amended s0 epOk (by decide)⟩

/-- Claim C8: the dispatcher is deterministic and carries no hidden state:
two invocations from any two states that agree on the user input, the
context collection, the selected context and the credential, against the
same deterministic mocked endpoint, emit identical event traces (hence
identical classifications) and append identical message suffixes (hence
identical reply text). -/
theorem claim8_deterministic (s1 s2 : AppState) (ep : Nat → HttpResponse)
    (hi : s1.input = s2.input) (hc : s1.contexts = s2.contexts)
    (hs : s1.selectedContext = s2.selectedContext) (hk : s1.apiKey = s2.apiKey) :
    (handleSend s1 ep).2 = (handleSend s2 ep).2
    ∧ (handleSend s1 ep).1.messages.drop s1.messages.length =
        (handleSend s2 ep).1.messages.drop s2.messages.length := by
  obtain ⟨m1, c1, sel1, i1, l1, k1⟩ := s1
  obtain ⟨m2, c2, sel2, i2, l2, k2⟩ := s2
  dsimp only at hi hc hs hk
  subst hi hc hs hk
  by_cases hb : jsTrim i1 = ""
  · simp [handleSend, hb]
  · by_cases hk2 : k1 = ""
    · simp [handleSend, hb, hk2]
    · simp only [handleSend, if_neg hb, if_neg hk2]
      rcases hr : retryLoop ep k1 (buildPrompt c1 sel1 i1) maxRetries 0 0 with ⟨evs, res⟩
      rcases res with e | od
      · simp [List.drop_left]
      · rcases od with _ | data
        · simp [truthy, List.drop_left]
        · by_cases ht : truthy data
          · rcases hx : extractText data with e | t
            · simp [ht, hx, List.drop_left]
            · simp [ht, hx, List.append_assoc, List.drop_left]
          · simp [ht, List.drop_left]

/-- Witness for C8 at two copies of the base state. -/
theorem claim8_witness :
    (handleSend s0 epOk).2 = (handleSend s0 epOk).2
    ∧ (handleSend s0 epOk).1.messages.drop s0.messages.length =
        (handleSend s0 epOk).1.messages.drop s0.messages.length :=
  claim8_deterministic s0 s0 epOk rfl rfl rfl rfl

/-- Counterexample to claim C9 as stated: two documents accepted in the
same drop and processed within the same clock millisecond receive the same
id, so the resulting Context ids are not pairwise distinct. -/
theorem claim9_counterexample :
    ¬ (((onDrop [] [(1000, "a.txt", "alpha"), (1000, "b.txt", "beta")]).map
        fun c => c.id).Nodup) := by
  decide

/-- Claim C9 (amended): after any sequence of document accepts, the context
collection is the original collection with one context appended per file in
processing order (so existing contexts are never mutated and none is
removed), and all ids are pairwise distinct provided the processing
timestamps are pairwise distinct (and distinct from existing ids) — the
code derives ids from the clock, so uniqueness holds only under that
clock assumption, not unconditionally. -/
theorem claim9_unique_ids_amended (ctxs : List Context) (files : List (Nat × String × String)) :
    onDrop ctxs files =
      ctxs ++ files.map (fun f => { id := toString f.1, name := f.2.1, content := f.2.2 })
    ∧ (((ctxs.map fun c => c.id) ++ files.map fun f => toString f.1).Nodup →
        ((onDrop ctxs files).map fun c => c.id).Nodup) := by
  refine ⟨onDrop_eq ctxs files, fun h => ?_⟩
  rw [onDrop_eq, List.map_append, List.map_map]
  simpa using h

/-- Witness for C9 (amended) at two files with distinct timestamps. -/
theorem claim9_witness :
    onDrop [] [(1, "a.txt", "alpha"), (2, "b.txt", "beta")] =
      [{ id := "1", name := "a.txt", content := "alpha" },
       { id := "2", name := "b.txt", content := "beta" }]
    ∧ ((onDrop [] [(1, "a.txt", "alpha"), (2, "b.txt", "beta")]).map fun c => c.id).Nodup := by
  have h := claim9_unique_ids_amended [] [(1, "a.txt", "alpha"), (2, "b.txt", "beta")]
  exact ⟨h.1, h.2 (by decide)⟩
